import Mathlib

/-!
# Verification of the GeoRender dashboard (`src/app.py`)

A shallow embedding of the data-handling core of the Dash application:
the join-key normalization and merge fallback in `load_data`
(lines 20-28), the metric selection in `compute_metric` (lines 53-63),
and the per-request recomputation in `update_dashboard` (lines 104-137).

Pandas series are modelled as `List (Option Int)` (`none` is NaN/null),
data frames as a row count plus the two string columns the dashboard
reads (`DPTO_CCDGO`, `name`) and the numeric columns keyed by name.
`sort_values(ascending := False)` is modelled as a stable descending
insertion sort; Python's float NaN mean on an empty frame is modelled as
`Option Rat` with `none` for NaN.
-/

namespace GeoRender

/-! ## Join-key normalization (`str.zfill`, app.py lines 21-22) -/

/-- Python `str.zfill` on the character list: when the string is
shorter than width `w`, left-pad with `'0'`; a leading sign character
stays in front of the padding. -/
def zfillChars : List Char → Nat → List Char
  | [], w => List.replicate w '0'
  | c :: rest, w =>
    if w ≤ rest.length + 1 then c :: rest
    else if c = '+' ∨ c = '-' then c :: (List.replicate (w - (rest.length + 1)) '0' ++ rest)
    else List.replicate (w - (rest.length + 1)) '0' ++ (c :: rest)

/-- Python `s.zfill(w)`. -/
def zfill (s : String) (w : Nat) : String := String.mk (zfillChars s.data w)

/-- Join-key normalization from app.py lines 21-22:
`astype(str).str.zfill(2)`.  The string cast is the identity on a code
that is already a string. -/
def normalize_code (s : String) : String := zfill s 2

/-! ## The in-memory data frame and `compute_metric` (app.py lines 53-63) -/

/-- The joined dataset as the dashboard reads it: a row count, the
`DPTO_CCDGO` and `name` string columns, and the numeric columns
(`Ano2009` … `Ano2012`, `Casos`, …) keyed by column name, with `none`
for a null (NaN) entry. -/
structure DataFrame where
  nrows : Nat
  dptos : List String
  names : List String
  numCols : List (String × List (Option Int))
deriving DecidableEq, Repr

/-- Well-formedness of the frame: every column has exactly one entry
per row. -/
def WF (df : DataFrame) : Prop :=
  df.dptos.length = df.nrows ∧ df.names.length = df.nrows ∧
    ∀ p ∈ df.numCols, (Prod.snd p).length = df.nrows

instance (df : DataFrame) : Decidable (WF df) := by
  unfold WF; infer_instance

/-- Column lookup, `df[c]` on the numeric columns; `none` models the
column being absent (`c in df.columns` false). -/
def getCol (df : DataFrame) (c : String) : Option (List (Option Int)) :=
  (df.numCols.find? (fun p => Prod.fst p == c)).map Prod.snd

/-- `compute_metric` (app.py lines 53-63).  For the range label the code
reads the precomputed `Casos` column — `df["Casos"]` raises `KeyError`
when that column is absent, modelled as `Except.error`.  For any other
selector it reads column `"Ano" ++ year`, falling back to a fresh
all-null series of length `len(df)` when the column is absent. -/
def compute_metric (df : DataFrame) (year : String) : Except String (List (Option Int)) :=
  if year = "2009-2012" then
    match getCol df "Casos" with
    | some v => Except.ok v
    | none => Except.error "KeyError: Casos"
  else
    match getCol df ("Ano" ++ year) with
    | some v => Except.ok v
    | none => Except.ok (List.replicate df.nrows none)

/-- `fillna(0)` on a series. -/
def fillna0 (v : List (Option Int)) : List Int := v.map (fun o => o.getD 0)

/-- Spec-side definition (section 4.1): for a single-year selector, the
metric is the yearly column with nulls replaced by zero; an absent
column yields zero for every row. -/
def specYearMetric (df : DataFrame) (year : String) : List Int :=
  match getCol df ("Ano" ++ year) with
  | some v => fillna0 v
  | none => List.replicate df.nrows 0

/-- Spec-side definition (sections 4.1 and 8): for the range selector
"2009-2012", the metric is the row-wise sum of the yearly columns
`Ano2009` … `Ano2012`, with nulls treated as zero before summation and
an absent column treated as all-null. -/
def specRangeMetric (df : DataFrame) : List Int :=
  let g := fun c => fillna0 ((getCol df c).getD (List.replicate df.nrows none))
  List.zipWith (· + ·)
    (List.zipWith (· + ·) (List.zipWith (· + ·) (g "Ano2009") (g "Ano2010")) (g "Ano2011"))
    (g "Ano2012")

/-! ## The dashboard callback `update_dashboard` (app.py lines 104-137) -/

/-- One record of the top-10 table
(`df[["DPTO_CCDGO","name","metric"]]` renamed `metric ↦ Casos`).
`idx` is the DataFrame row index; `to_dict("records")` drops it, but it
records row provenance so the tie-breaking order can be stated. -/
structure TableRow where
  idx : Nat
  dpto : String
  name : String
  casos : Int
deriving DecidableEq, Repr

/-- The three-column projection `df[["DPTO_CCDGO","name","metric"]]`,
with the positional row index attached. -/
def tagRows (i : Nat) : List String → List String → List Int → List TableRow
  | d :: ds, n :: ns, m :: ms => ⟨i, d, n, m⟩ :: tagRows (i + 1) ds ns ms
  | _, _, _ => []

/-- Insert a row into a descending-sorted list, after every row whose
metric is greater than or equal: the stable insertion step. -/
def insertDesc (r : TableRow) : List TableRow → List TableRow
  | [] => [r]
  | x :: xs => if x.casos < r.casos then r :: x :: xs else x :: insertDesc r xs

/-- `sort_values("Casos", ascending=False)` modelled as a stable
descending sort: rows are taken in original order and each is inserted
after all earlier rows with an equal or larger metric. -/
def sortDesc (l : List TableRow) : List TableRow :=
  l.foldl (fun acc r => insertDesc r acc) []

/-- The table data of app.py lines 119-120: project, sort descending by
the metric, keep the first 10 records. -/
def topTable (dptos names : List String) (metric : List Int) : List TableRow :=
  (sortDesc (tagRows 0 dptos names metric)).take 10

/-- `Series.idxmax` on a positional index: the first position holding
the maximum value (`0` on the empty series, unreachable in the guarded
caller). -/
def idxmaxAux (best : Int) (bi i : Nat) : List Int → Nat
  | [] => bi
  | x :: xs => if best < x then idxmaxAux x i (i + 1) xs else idxmaxAux best bi (i + 1) xs

/-- `df["metric"].idxmax()`. -/
def idxmax : List Int → Nat
  | [] => 0
  | x :: xs => idxmaxAux x 0 1 xs

/-- Which map the view dropdown selects (app.py lines 123-134). -/
inductive FigureKind where
  | choropleth
  | bubbles
deriving DecidableEq, Repr

/-- Rendering of the mean KPI, `f"{mean:,.1f}"`: Python prints float
NaN as `"nan"`; the numeric formatting of a finite value is abstracted
as `toString`. -/
def fmtMean : Option Rat → String
  | none => "nan"
  | some q => toString q

/-- The three outputs of the callback plus the intermediate values the
claims speak about (`metric`, `total`, `mean`, `max_depto`). -/
structure DashOutput where
  metric : List Int
  total : Int
  mean : Option Rat
  maxDepto : String
  kpis : List (String × String)
  table : List TableRow
  fig : FigureKind
deriving DecidableEq, Repr

/-- `update_dashboard` (app.py lines 104-137): compute the metric, fill
nulls with zero, derive the KPIs (`int(sum)`, `float(mean)` — NaN on an
empty frame — and the name at `idxmax`, guarded by `len(df) > 0`), build
the top-10 table, and pick the figure from the view dropdown.  A
`KeyError` escaping `compute_metric` propagates as `Except.error`. -/
def update_dashboard (df : DataFrame) (year view : String) : Except String DashOutput :=
  match compute_metric df year with
  | Except.error e => Except.error e
  | Except.ok val =>
    let metric := fillna0 val
    let total : Int := metric.sum
    let mean : Option Rat :=
      if df.nrows = 0 then none else some ((metric.sum : Rat) / (df.nrows : Rat))
    let maxDepto : String :=
      if 0 < df.nrows then df.names.getD (idxmax metric) "" else ""
    Except.ok
      { metric := metric
        total := total
        mean := mean
        maxDepto := maxDepto
        kpis := [("Total de casos", toString total),
                 ("Promedio por departamento", fmtMean mean),
                 ("Departamento con más casos", maxDepto)]
        table := topTable df.dptos df.names metric
        fig := if view = "choropleth" then FigureKind.choropleth else FigureKind.bubbles }

/-- Everything the callback computes except the rendered figure. -/
def viewData (r : Except String DashOutput) :
    Except String (List Int × Int × Option Rat × String × List (String × String) × List TableRow) :=
  r.map (fun o => (o.metric, o.total, o.mean, o.maxDepto, o.kpis, o.table))

/-! ## The loader join and its fallback (`load_data`, app.py lines 20-28) -/

/-- A geographic attribute table as the loader sees it: column names
plus rows of optional string values (`none` is a null attribute). -/
structure GeoTable where
  columns : List String
  rows : List (List (Option String))
deriving DecidableEq, Repr

/-- `t[c] = t[c].astype(str).str.zfill(2)`: raises `KeyError` when the
column is absent, otherwise normalizes every value of that column. -/
def normalizeCol (t : GeoTable) (c : String) : Except String GeoTable :=
  match t.columns.findIdx? (fun x => x == c) with
  | none => Except.error ("KeyError: " ++ c)
  | some i =>
      Except.ok ⟨t.columns, t.rows.map (fun r => r.set i ((r.getD i none).map (fun s => zfill s 2)))⟩

/-- `gdf_co.merge(gdf_vih, left_on="DPTO_CCDGO", right_on="DANE",
how="left")`: every left row paired with each matching right row, or
padded with nulls when no right row matches. -/
def mergeLeft (co vih : GeoTable) (li ri : Nat) : GeoTable :=
  ⟨co.columns ++ vih.columns,
    (co.rows.map (fun r =>
      let ms := vih.rows.filter (fun s => s.getD ri none == r.getD li none)
      if ms.isEmpty then [r ++ List.replicate vih.columns.length none]
      else ms.map (fun s => r ++ s))).flatten⟩

/-- The body of the `try:` block of app.py lines 20-24: normalize both
key columns, then left-join boundaries to cases. -/
def tryJoin (co vih : GeoTable) : Except String GeoTable :=
  match normalizeCol co "DPTO_CCDGO" with
  | Except.error e => Except.error e
  | Except.ok co2 =>
    match normalizeCol vih "DANE" with
    | Except.error e => Except.error e
    | Except.ok vih2 =>
      match co2.columns.findIdx? (fun x => x == "DPTO_CCDGO"),
            vih2.columns.findIdx? (fun x => x == "DANE") with
      | some li, some ri => Except.ok (mergeLeft co2 vih2 li ri)
      | _, _ => Except.error "KeyError"

/-- The merge path of `load_data` (app.py lines 20-28): on any failure
inside the `try:` block the exception is caught, a warning is printed
(returned here as the second component) and the case dataset `gdf_vih`
itself becomes the result. -/
def load_data_merged (co vih : GeoTable) : GeoTable × List String :=
  match tryJoin co vih with
  | Except.ok m => (m, [])
  | Except.error e => (vih, ["Advertencia merge real: " ++ e])

/-! ## Concrete datasets used by witnesses and counterexamples -/

/-- A frame shaped like the synthetic fallback output (app.py lines
41-46): yearly columns plus a `Casos` column holding the row-wise sums. -/
def dfSyn : DataFrame :=
  ⟨2, ["05", "08"], ["Antioquia", "Atlantico"],
   [("Ano2009", [some 10, some 20]), ("Ano2010", [some 30, some 5]),
    ("Ano2011", [none, some 1]), ("Ano2012", [some 2, some 3]),
    ("Casos", [some 42, some 29])]⟩

/-- A frame whose `Casos` column disagrees with the row-wise sum of the
yearly columns (`Casos = 5`, sum = 1). -/
def dfC1 : DataFrame :=
  ⟨1, ["05"], ["A"],
   [("Ano2009", [some 1]), ("Ano2010", [some 0]), ("Ano2011", [some 0]),
    ("Ano2012", [some 0]), ("Casos", [some 5])]⟩

/-- A non-empty frame whose `Ano2009` column is entirely null. -/
def dfC3 : DataFrame :=
  ⟨1, ["05"], ["Antioquia"], [("Ano2009", [none]), ("Casos", [some 3])]⟩

/-- A frame with zero rows (columns present but empty). -/
def dfEmpty : DataFrame := ⟨0, [], [], [("Ano2009", []), ("Casos", [])]⟩

/-- A one-row frame without a `Casos` column. -/
def dfNoCasos : DataFrame := ⟨1, ["05"], ["A"], [("Ano2009", [some 1])]⟩

/-- A two-row frame without a `Casos` column. -/
def dfNoCasos2 : DataFrame :=
  ⟨2, ["05", "08"], ["A", "B"], [("Ano2009", [some 1, none])]⟩

/-- A frame missing the `Ano2011` column. -/
def dfNoYear : DataFrame :=
  ⟨1, ["05"], ["A"], [("Ano2009", [some 1]), ("Casos", [some 1])]⟩

/-- A boundary table without the expected `DPTO_CCDGO` key column. -/
def coBad : GeoTable := ⟨["CODE"], [[some "5"]]⟩

/-- A case table carrying the `DANE` key column. -/
def vihCase : GeoTable := ⟨["DANE", "Ano2009"], [[some "5", some "10"]]⟩

/-! ## Helper lemmas -/

lemma zfillChars_of_le : ∀ {l : List Char} {w : Nat}, w ≤ l.length → zfillChars l w = l
  | [], w, h => by
    simp only [List.length_nil, Nat.le_zero] at h
    subst h
    rfl
  | c :: rest, w, h => by
    simp only [List.length_cons] at h
    simp only [zfillChars, if_pos h]

lemma zfillChars_length : ∀ (l : List Char) (w : Nat), w ≤ (zfillChars l w).length
  | [], w => by simp [zfillChars]
  | c :: rest, w => by
    simp only [zfillChars]
    by_cases h : w ≤ rest.length + 1
    · rw [if_pos h]
      simpa using h
    · rw [if_neg h]
      by_cases hc : c = '+' ∨ c = '-'
      · rw [if_pos hc]
        simp only [List.length_cons, List.length_append, List.length_replicate]
        omega
      · rw [if_neg hc]
        simp only [List.length_cons, List.length_append, List.length_replicate]
        omega

lemma zfillChars_idem (l : List Char) (w : Nat) :
    zfillChars (zfillChars l w) w = zfillChars l w :=
  zfillChars_of_le (zfillChars_length l w)

lemma getCol_length {df : DataFrame} {c : String} {v : List (Option Int)}
    (h : WF df) (hc : getCol df c = some v) : v.length = df.nrows := by
  unfold getCol at hc
  cases hf : df.numCols.find? (fun p => Prod.fst p == c) with
  | none => rw [hf] at hc; simp at hc
  | some p =>
    rw [hf] at hc
    simp only [Option.map, Option.some.injEq] at hc
    have hmem : p ∈ df.numCols := List.mem_of_find?_eq_some hf
    have := h.2.2 p hmem
    rw [hc] at this
    exact this

lemma fillna0_length (v : List (Option Int)) : (fillna0 v).length = v.length := by
  simp [fillna0]

lemma compute_metric_length {df : DataFrame} {year : String} {v : List (Option Int)}
    (h : WF df) (hm : compute_metric df year = Except.ok v) : v.length = df.nrows := by
  unfold compute_metric at hm
  split at hm
  · cases hg : getCol df "Casos" with
    | none => simp [hg] at hm
    | some w =>
      simp only [hg, Except.ok.injEq] at hm
      subst hm
      exact getCol_length h hg
  · cases hg : getCol df ("Ano" ++ year) with
    | none =>
      simp only [hg, Except.ok.injEq] at hm
      subst hm
      simp
    | some w =>
      simp only [hg, Except.ok.injEq] at hm
      subst hm
      exact getCol_length h hg

lemma compute_metric_ok {df : DataFrame} {year : String}
    (hsel : year ≠ "2009-2012" ∨ (getCol df "Casos").isSome) :
    ∃ v, compute_metric df year = Except.ok v := by
  unfold compute_metric
  by_cases hy : year = "2009-2012"
  · rcases hsel with hy' | hc
    · exact absurd hy hy'
    · rw [if_pos hy]
      cases hg : getCol df "Casos" with
      | none => rw [hg] at hc; cases hc
      | some w => exact ⟨w, rfl⟩
  · rw [if_neg hy]
    cases hg : getCol df ("Ano" ++ year) with
    | none => exact ⟨_, rfl⟩
    | some w => exact ⟨w, rfl⟩

/-- The intended order of the rendered table: strictly larger metric
first, ties in original row order. -/
def lexOrd (a b : TableRow) : Prop :=
  b.casos < a.casos ∨ (a.casos = b.casos ∧ a.idx < b.idx)

lemma insertDesc_perm (r : TableRow) : ∀ l, List.Perm (insertDesc r l) (r :: l)
  | [] => by simp [insertDesc]
  | x :: xs => by
    unfold insertDesc
    split
    · exact List.Perm.refl _
    · exact List.Perm.trans ((insertDesc_perm r xs).cons x) (List.Perm.swap r x xs)

lemma mem_insertDesc {x r : TableRow} {l : List TableRow} :
    x ∈ insertDesc r l ↔ x = r ∨ x ∈ l := by
  rw [(insertDesc_perm r l).mem_iff, List.mem_cons]

lemma foldl_insertDesc_perm : ∀ (l acc : List TableRow),
    List.Perm (l.foldl (fun a r => insertDesc r a) acc) (l ++ acc)
  | [], acc => by simp
  | r :: rest, acc => by
    simp only [List.foldl_cons]
    exact List.Perm.trans (foldl_insertDesc_perm rest (insertDesc r acc))
      (List.Perm.trans (List.Perm.append_left rest (insertDesc_perm r acc)) List.perm_middle)

lemma sortDesc_perm (l : List TableRow) : List.Perm (sortDesc l) l := by
  simpa using foldl_insertDesc_perm l []

lemma sortDesc_length (l : List TableRow) : (sortDesc l).length = l.length :=
  (sortDesc_perm l).length_eq

lemma insertDesc_pairwise {r : TableRow} :
    ∀ {acc : List TableRow}, acc.Pairwise lexOrd → (∀ x ∈ acc, x.idx < r.idx) →
      (insertDesc r acc).Pairwise lexOrd
  | [], _, _ => by simp [insertDesc]
  | x :: xs, hp, hidx => by
    unfold insertDesc
    split
    · next hlt =>
      rw [List.pairwise_cons]
      refine ⟨?_, hp⟩
      intro b hb
      rcases List.mem_cons.mp hb with rfl | hbxs
      · exact Or.inl hlt
      · have hxb := (List.pairwise_cons.mp hp).1 b hbxs
        rcases hxb with h1 | ⟨h1, _⟩
        · exact Or.inl (lt_trans h1 hlt)
        · exact Or.inl (h1 ▸ hlt)
    · next hnlt =>
      rw [List.pairwise_cons]
      constructor
      · intro b hb
        rcases mem_insertDesc.mp hb with rfl | hbxs
        · rcases lt_or_eq_of_le (not_lt.mp hnlt) with h1 | h1
          · exact Or.inl h1
          · exact Or.inr ⟨h1.symm, hidx x (List.mem_cons_self x xs)⟩
        · exact (List.pairwise_cons.mp hp).1 b hbxs
      · exact insertDesc_pairwise (List.pairwise_cons.mp hp).2
          (fun y hy => hidx y (List.mem_cons_of_mem x hy))

lemma foldl_insertDesc_pairwise :
    ∀ (l acc : List TableRow), acc.Pairwise lexOrd →
      (∀ x ∈ acc, ∀ r ∈ l, x.idx < r.idx) →
      l.Pairwise (fun a b => a.idx < b.idx) →
      (l.foldl (fun a r => insertDesc r a) acc).Pairwise lexOrd
  | [], acc, hacc, _, _ => by simpa using hacc
  | r :: rest, acc, hacc, hcross, hl => by
    simp only [List.foldl_cons]
    apply foldl_insertDesc_pairwise rest (insertDesc r acc)
    · exact insertDesc_pairwise hacc (fun x hx => hcross x hx r (List.mem_cons_self r rest))
    · intro x hx r' hr'
      rcases mem_insertDesc.mp hx with rfl | hxa
      · exact (List.pairwise_cons.mp hl).1 r' hr'
      · exact hcross x hxa r' (List.mem_cons_of_mem r hr')
    · exact (List.pairwise_cons.mp hl).2

lemma sortDesc_pairwise {l : List TableRow} (hl : l.Pairwise (fun a b => a.idx < b.idx)) :
    (sortDesc l).Pairwise lexOrd :=
  foldl_insertDesc_pairwise l [] List.Pairwise.nil (by simp) hl

lemma tagRows_length : ∀ (i : Nat) (ds ns : List String) (ms : List Int),
    (tagRows i ds ns ms).length = min ds.length (min ns.length ms.length)
  | i, d :: ds, n :: ns, m :: ms => by
    simp only [tagRows, List.length_cons, tagRows_length (i + 1) ds ns ms]
    omega
  | _, [], _, _ => by simp [tagRows]
  | _, _ :: _, [], _ => by simp [tagRows]
  | _, _ :: _, _ :: _, [] => by simp [tagRows]

lemma mem_tagRows_idx : ∀ {i : Nat} {ds ns : List String} {ms : List Int} {r : TableRow},
    r ∈ tagRows i ds ns ms → i ≤ r.idx
  | i, d :: ds, n :: ns, m :: ms, r, hr => by
    simp only [tagRows, List.mem_cons] at hr
    rcases hr with rfl | hr
    · exact Nat.le_refl i
    · exact Nat.le_of_succ_le (mem_tagRows_idx hr)
  | _, [], _, _, _, hr => by simp [tagRows] at hr
  | _, _ :: _, [], _, _, hr => by simp [tagRows] at hr
  | _, _ :: _, _ :: _, [], _, hr => by simp [tagRows] at hr

lemma tagRows_pairwise_idx : ∀ (i : Nat) (ds ns : List String) (ms : List Int),
    (tagRows i ds ns ms).Pairwise (fun a b => a.idx < b.idx)
  | i, d :: ds, n :: ns, m :: ms => by
    simp only [tagRows, List.pairwise_cons]
    refine ⟨fun b hb => ?_, tagRows_pairwise_idx (i + 1) ds ns ms⟩
    exact Nat.lt_of_lt_of_le (Nat.lt_succ_self i) (mem_tagRows_idx hb)
  | _, [], _, _ => by simp [tagRows]
  | _, _ :: _, [], _ => by simp [tagRows]
  | _, _ :: _, _ :: _, [] => by simp [tagRows]

lemma topTable_pairwise (dptos names : List String) (metric : List Int) :
    (topTable dptos names metric).Pairwise lexOrd :=
  (sortDesc_pairwise (tagRows_pairwise_idx 0 dptos names metric)).sublist
    (List.take_sublist 10 _)

lemma idxmaxAux_of_le : ∀ {best : Int} {bi i : Nat} {xs : List Int},
    (∀ x ∈ xs, x ≤ best) → idxmaxAux best bi i xs = bi
  | _, _, _, [], _ => rfl
  | best, bi, i, x :: xs, h => by
    unfold idxmaxAux
    rw [if_neg (not_lt.mpr (h x (List.mem_cons_self x xs)))]
    exact idxmaxAux_of_le (fun y hy => h y (List.mem_cons_of_mem x hy))

lemma idxmax_all_zero {m : List Int} (h : ∀ x ∈ m, x = 0) : idxmax m = 0 := by
  cases m with
  | nil => rfl
  | cons x xs =>
    unfold idxmax
    apply idxmaxAux_of_le
    intro y hy
    rw [h y (List.mem_cons_of_mem x hy), h x (List.mem_cons_self x xs)]

lemma fillna0_all_none {v : List (Option Int)} (h : ∀ x ∈ v, x = none) :
    ∀ y ∈ fillna0 v, y = 0 := by
  intro y hy
  simp only [fillna0, List.mem_map] at hy
  obtain ⟨o, ho, rfl⟩ := hy
  rw [h o ho]
  rfl

/-! ## Claims -/

/-- C9: join key normalization (string cast followed by left-zero-pad
to width 2) is idempotent: for every department code string,
normalizing an already-normalized code returns the same code. -/
theorem C9_normalize_code_idempotent (s : String) :
    normalize_code (normalize_code s) = normalize_code s := by
  unfold normalize_code zfill
  exact congrArg String.mk (zfillChars_idem s.data 2)

/-- C7: whenever the key-normalized left join of the boundary and case
tables fails, `load_data` catches the failure, logs a warning and
returns the case dataset itself; the failure is never fatal. -/
theorem C7_join_failure_degrades (co vih : GeoTable) (e : String)
    (h : tryJoin co vih = Except.error e) :
    load_data_merged co vih = (vih, ["Advertencia merge real: " ++ e]) := by
  unfold load_data_merged
  rw [h]

theorem C7_witness :
    tryJoin coBad vihCase = Except.error "KeyError: DPTO_CCDGO" ∧
      load_data_merged coBad vihCase =
        (vihCase, ["Advertencia merge real: " ++ "KeyError: DPTO_CCDGO"]) :=
  ⟨rfl, C7_join_failure_degrades coBad vihCase "KeyError: DPTO_CCDGO" rfl⟩

/-- C6: for every dataset and year selector, running the dashboard
update with view mode "choropleth" and with view mode "bubbles"
produces identical metric values, summary figures and table data; only
the rendered figure differs. -/
theorem C6_view_mode_irrelevant (df : DataFrame) (year : String) :
    viewData (update_dashboard df year "choropleth") =
      viewData (update_dashboard df year "bubbles") := by
  unfold update_dashboard
  cases compute_metric df year with
  | error e => rfl
  | ok val => rfl

/-- C2: for every dataset and every supported single-year selector, the
metric handed to the caller after null-filling equals the yearly column
named by that year with nulls replaced by zero; if that column is
absent, every row's metric is zero (`specYearMetric`). -/
theorem C2_single_year_metric (df : DataFrame) (year view : String)
    (hy : year ∈ ["2009", "2010", "2011", "2012"]) :
    (update_dashboard df year view).map DashOutput.metric =
      Except.ok (specYearMetric df year) := by
  have hy' : year ≠ "2009-2012" := by
    simp only [List.mem_cons, List.not_mem_nil, or_false] at hy
    rcases hy with rfl | rfl | rfl | rfl <;> decide
  unfold update_dashboard compute_metric specYearMetric
  rw [if_neg hy']
  cases hg : getCol df ("Ano" ++ year) with
  | some v => simp [hg, Except.map]
  | none => simp [hg, Except.map, fillna0]

theorem C2_witness :
    ("2010" ∈ ["2009", "2010", "2011", "2012"]) ∧
      (update_dashboard dfSyn "2010" "bubbles").map DashOutput.metric =
        Except.ok (specYearMetric dfSyn "2010") :=
  ⟨by decide, C2_single_year_metric dfSyn "2010" "bubbles" (by decide)⟩

/-- C1 (amended): for the range selector "2009-2012" the metric handed
to the caller after null-filling equals the precomputed `Casos` column
with nulls replaced by zero; it equals the row-wise sum of the yearly
columns `Ano2009`-`Ano2012` (`specRangeMetric`) exactly when the
`Casos` column already stores that null-as-zero sum, as the loader's
synthetic path guarantees. -/
theorem C1_amended_range_metric (df : DataFrame) (view : String)
    (cv : List (Option Int)) (hc : getCol df "Casos" = some cv) :
    (update_dashboard df "2009-2012" view).map DashOutput.metric =
        Except.ok (fillna0 cv) ∧
      (fillna0 cv = specRangeMetric df →
        (update_dashboard df "2009-2012" view).map DashOutput.metric =
          Except.ok (specRangeMetric df)) := by
  have hm : (update_dashboard df "2009-2012" view).map DashOutput.metric =
      Except.ok (fillna0 cv) := by
    unfold update_dashboard compute_metric
    simp [hc, Except.map]
  exact ⟨hm, fun hinv => hinv ▸ hm⟩

theorem C1_witness :
    getCol dfSyn "Casos" = some [some 42, some 29] ∧
      fillna0 [some 42, some 29] = specRangeMetric dfSyn ∧
      (update_dashboard dfSyn "2009-2012" "bubbles").map DashOutput.metric =
        Except.ok (specRangeMetric dfSyn) :=
  ⟨rfl, by decide,
   (C1_amended_range_metric dfSyn "bubbles" [some 42, some 29] rfl).2 (by decide)⟩

theorem C1_counterexample :
    (update_dashboard dfC1 "2009-2012" "bubbles").map DashOutput.metric =
        Except.ok [(5 : Int)] ∧
      specRangeMetric dfC1 = [(1 : Int)] ∧ ¬ ((5 : Int) = 1) :=
  ⟨rfl, by decide, by decide⟩

/-- C4 (amended): for every supported single-year selector whose yearly
column is absent, `compute_metric` returns an all-null series that the
caller fills with zero, and raises no error; the range selector instead
raises a `KeyError` when the `Casos` column it reads is absent. -/
theorem C4_amended_missing_column (df : DataFrame) (year : String)
    (hy : year ∈ ["2009", "2010", "2011", "2012"])
    (habs : getCol df ("Ano" ++ year) = none) :
    compute_metric df year = Except.ok (List.replicate df.nrows none) ∧
      (compute_metric df year).map fillna0 =
        Except.ok (List.replicate df.nrows (0 : Int)) := by
  have hy' : year ≠ "2009-2012" := by
    simp only [List.mem_cons, List.not_mem_nil, or_false] at hy
    rcases hy with rfl | rfl | rfl | rfl <;> decide
  unfold compute_metric
  rw [if_neg hy']
  refine ⟨by simp [habs], ?_⟩
  simp [habs, Except.map, fillna0]

theorem C4_witness :
    ("2011" ∈ ["2009", "2010", "2011", "2012"]) ∧
      getCol dfNoYear ("Ano" ++ "2011") = none ∧
      compute_metric dfNoYear "2011" = Except.ok (List.replicate dfNoYear.nrows none) ∧
      (compute_metric dfNoYear "2011").map fillna0 =
        Except.ok (List.replicate dfNoYear.nrows (0 : Int)) := by
  refine ⟨by decide, rfl, ?_⟩
  exact C4_amended_missing_column dfNoYear "2011" (by decide) rfl

theorem C4_counterexample :
    compute_metric dfNoCasos "2009-2012" = Except.error "KeyError: Casos" := rfl

/-- C10 (amended): `compute_metric` returns one value per input row —
also in the absent-column branch, where it builds a fresh all-null
series of length `len(df)` — for every selector except "2009-2012"
with the `Casos` column absent, where it raises a `KeyError` instead. -/
theorem C10_amended_length_preserved (df : DataFrame) (year : String) (h : WF df)
    (hsel : year ≠ "2009-2012" ∨ (getCol df "Casos").isSome) :
    (compute_metric df year).map List.length = Except.ok df.nrows := by
  obtain ⟨v, hv⟩ := compute_metric_ok hsel
  rw [hv]
  simp [Except.map, compute_metric_length h hv]

theorem C10_witness :
    WF dfNoYear ∧ ("2011" ≠ "2009-2012" ∨ (getCol dfNoYear "Casos").isSome) ∧
      (compute_metric dfNoYear "2011").map List.length = Except.ok dfNoYear.nrows :=
  ⟨by decide, Or.inl (by decide),
   C10_amended_length_preserved dfNoYear "2011" (by decide) (Or.inl (by decide))⟩

theorem C10_counterexample :
    compute_metric dfNoCasos2 "2009-2012" = Except.error "KeyError: Casos" := rfl

/-- C3 (amended): for every non-empty dataset in which the series
consumed by the selected year is entirely null, the rendered total is
zero and the "department with most cases" figure is the FIRST
department's name (`idxmax` of the zero-filled series is row 0), not
the empty string. -/
theorem C3_amended_all_null_year (df : DataFrame) (year view : String)
    (v : List (Option Int)) (h : WF df) (hn : 0 < df.nrows)
    (hv : compute_metric df year = Except.ok v) (hall : ∀ x ∈ v, x = none) :
    (update_dashboard df year view).map DashOutput.total = Except.ok 0 ∧
      (update_dashboard df year view).map DashOutput.maxDepto =
        Except.ok (df.names.getD 0 "") := by
  have hz : ∀ y ∈ fillna0 v, y = 0 := fillna0_all_none hall
  have htot : (fillna0 v).sum = 0 := List.sum_eq_zero hz
  have hidx : idxmax (fillna0 v) = 0 := idxmax_all_zero hz
  unfold update_dashboard
  rw [hv]
  simp [Except.map, htot, hidx, hn]

theorem C3_witness :
    WF dfC3 ∧ 0 < dfC3.nrows ∧
      compute_metric dfC3 "2009" = Except.ok [none] ∧
      (update_dashboard dfC3 "2009" "bubbles").map DashOutput.total = Except.ok 0 ∧
      (update_dashboard dfC3 "2009" "bubbles").map DashOutput.maxDepto =
        Except.ok (dfC3.names.getD 0 "") := by
  refine ⟨by decide, by decide, rfl, ?_⟩
  exact C3_amended_all_null_year dfC3 "2009" "bubbles" [none] (by decide) (by decide)
    rfl (by decide)

theorem C3_counterexample :
    (update_dashboard dfC3 "2009" "bubbles").map DashOutput.total = Except.ok 0 ∧
      (update_dashboard dfC3 "2009" "bubbles").map DashOutput.maxDepto =
        Except.ok "Antioquia" ∧
      ¬ ("Antioquia" = "") :=
  ⟨rfl, rfl, by decide⟩

/-- C8 (amended): for every empty dataset (zero rows) and every
selector whose required column exists, the dashboard update raises no
error, the total is zero and the argmax department is the empty string;
the mean however is NaN (`none`), rendered as "nan" in the KPI panel
rather than being defined as zero or skipped. -/
theorem C8_amended_empty_dataset (df : DataFrame) (year view : String) (h : WF df)
    (he : df.nrows = 0)
    (hsel : year ≠ "2009-2012" ∨ (getCol df "Casos").isSome) :
    (update_dashboard df year view).map DashOutput.total = Except.ok 0 ∧
      (update_dashboard df year view).map DashOutput.maxDepto = Except.ok "" ∧
      (update_dashboard df year view).map DashOutput.mean = Except.ok none ∧
      (update_dashboard df year view).map (fun o => o.kpis.getD 1 ("", "")) =
        Except.ok ("Promedio por departamento", "nan") := by
  obtain ⟨v, hv⟩ := compute_metric_ok hsel
  have hlen : v.length = df.nrows := compute_metric_length h hv
  have hvnil : v = [] := List.length_eq_zero.mp (by rw [hlen, he])
  subst hvnil
  unfold update_dashboard
  rw [hv]
  simp [Except.map, fillna0, he, fmtMean]

theorem C8_witness :
    WF dfEmpty ∧ dfEmpty.nrows = 0 ∧
      ("2009" ≠ "2009-2012" ∨ (getCol dfEmpty "Casos").isSome) ∧
      (update_dashboard dfEmpty "2009" "choropleth").map DashOutput.total = Except.ok 0 ∧
      (update_dashboard dfEmpty "2009" "choropleth").map DashOutput.maxDepto =
        Except.ok "" ∧
      (update_dashboard dfEmpty "2009" "choropleth").map DashOutput.mean =
        Except.ok none ∧
      (update_dashboard dfEmpty "2009" "choropleth").map (fun o => o.kpis.getD 1 ("", "")) =
        Except.ok ("Promedio por departamento", "nan") := by
  refine ⟨by decide, rfl, Or.inl (by decide), ?_⟩
  have := C8_amended_empty_dataset dfEmpty "2009" "choropleth" (by decide) rfl
    (Or.inl (by decide))
  exact ⟨this.1, this.2.1, this.2.2.1, this.2.2.2⟩

theorem C8_counterexample :
    (update_dashboard dfEmpty "2009" "bubbles").map DashOutput.mean = Except.ok none ∧
      (Except.ok (none : Option Rat) : Except String (Option Rat)) ≠
        Except.ok (some (0 : Rat)) ∧
      (update_dashboard dfEmpty "2009" "bubbles").map (fun o => o.kpis.length) =
        Except.ok 3 ∧
      (update_dashboard dfEmpty "2009" "bubbles").map (fun o => o.kpis.getD 1 ("", "")) =
        Except.ok ("Promedio por departamento", "nan") := by
  refine ⟨rfl, by simp, rfl, rfl⟩

/-- C5: for every dataset and selected year, the rendered table holds
the departments ordered by metric descending, contains at most 10 rows
(all rows when the dataset has fewer than 10 departments), and breaks
metric ties by the departments' original row order. -/
theorem C5_top_table (df : DataFrame) (year view : String) (tbl : List TableRow)
    (mv : List Int) (h : WF df)
    (ht : (update_dashboard df year view).map DashOutput.table = Except.ok tbl)
    (hm : (update_dashboard df year view).map DashOutput.metric = Except.ok mv) :
    tbl.length = min 10 df.nrows ∧
      List.Pairwise (fun a b => b.casos ≤ a.casos) tbl ∧
      List.Pairwise (fun a b => a.casos = b.casos → a.idx < b.idx) tbl ∧
      (df.nrows ≤ 10 → ∀ r ∈ tagRows 0 df.dptos df.names mv, r ∈ tbl) := by
  cases hc : compute_metric df year with
  | error e => simp [update_dashboard, hc, Except.map] at ht
  | ok val =>
    simp only [update_dashboard, hc, Except.map, Except.ok.injEq] at ht hm
    subst ht
    subst hm
    have hlenv : (fillna0 val).length = df.nrows := by
      rw [fillna0_length]
      exact compute_metric_length h hc
    have hlentag : (tagRows 0 df.dptos df.names (fillna0 val)).length = df.nrows := by
      rw [tagRows_length, h.1, h.2.1, hlenv]
      omega
    have hsorted : (topTable df.dptos df.names (fillna0 val)).Pairwise lexOrd :=
      topTable_pairwise df.dptos df.names (fillna0 val)
    refine ⟨?_, ?_, ?_, ?_⟩
    · unfold topTable
      rw [List.length_take, sortDesc_length, hlentag]
    · exact hsorted.imp (fun {a b} hab => by
        rcases hab with h1 | ⟨h1, _⟩
        · exact le_of_lt h1
        · exact le_of_eq h1.symm)
    · exact hsorted.imp (fun {a b} hab heq => by
        rcases hab with h1 | ⟨_, h2⟩
        · rw [heq] at h1
          exact absurd h1 (lt_irrefl _)
        · exact h2)
    · intro h10 r hr
      unfold topTable
      rw [List.take_of_length_le (by rw [sortDesc_length, hlentag]; exact h10)]
      exact (sortDesc_perm _).mem_iff.mpr hr

theorem C5_witness :
    WF dfSyn ∧
      (update_dashboard dfSyn "2009" "bubbles").map DashOutput.table =
        Except.ok [⟨1, "08", "Atlantico", 20⟩, ⟨0, "05", "Antioquia", 10⟩] ∧
      (update_dashboard dfSyn "2009" "bubbles").map DashOutput.metric =
        Except.ok [10, 20] ∧
      ([⟨1, "08", "Atlantico", 20⟩, ⟨0, "05", "Antioquia", 10⟩] : List TableRow).length =
          min 10 dfSyn.nrows ∧
      List.Pairwise (fun a b => b.casos ≤ a.casos)
        ([⟨1, "08", "Atlantico", 20⟩, ⟨0, "05", "Antioquia", 10⟩] : List TableRow) ∧
      List.Pairwise (fun a b => a.casos = b.casos → a.idx < b.idx)
        ([⟨1, "08", "Atlantico", 20⟩, ⟨0, "05", "Antioquia", 10⟩] : List TableRow) ∧
      (dfSyn.nrows ≤ 10 → ∀ r ∈ tagRows 0 dfSyn.dptos dfSyn.names [10, 20],
        r ∈ ([⟨1, "08", "Atlantico", 20⟩, ⟨0, "05", "Antioquia", 10⟩] : List TableRow)) := by
  refine ⟨by decide, rfl, rfl, ?_⟩
  have := C5_top_table dfSyn "2009" "bubbles"
    [⟨1, "08", "Atlantico", 20⟩, ⟨0, "05", "Antioquia", 10⟩] [10, 20]
    (by decide) rfl rfl
  exact ⟨this.1, this.2.1, this.2.2.1, this.2.2.2⟩

end GeoRender
